import Mathlib

/-!
Shallow embedding of `src/rust/src/unit.rs` from the quanstants repository,
together with proofs of the specified properties of that fragment.

The Rust fragment declares:
  * `struct Value<'a>(f64, &'a BaseUnit);`                (private)
  * `trait Val { fn value(&self) -> Value; }`             (private)
  * `pub enum BaseUnit { Metre, Second, Kilogram }`
  * `impl Val for BaseUnit { fn value(&self) -> Value { Value(1.0, &self) } }`
  * `pub struct Unit<'a> { pub symbol: String, pub name: String, pub def: &'a BaseUnit }`
  * `impl Val for Unit<'_> { fn value(&self) -> Value { Value(1.0, self.def) } }`

Modelling choices:
  * `BaseUnit` variants carry no data, so a `&'a BaseUnit` reference is
    identified with the `BaseUnit` variant it points to (the spec itself says
    equality on variants is identity).  The `f64` magnitude is modelled by
    Lean's `Float`; the only magnitude the code ever produces is the literal
    `1.0`, on which no arithmetic is performed.
  * Rust's `fn value(&self)` takes only a shared borrow, so the call can
    neither read nor write any ambient state; this is made explicit by
    state-passing wrappers (`valueCall`) over an arbitrary state type, and
    construction of a `Unit` is modelled as consing onto a catalog list.
-/

namespace Quanstants

/-- BaseUnit: the closed enumeration `pub enum BaseUnit` of `unit.rs`, with
exactly the three variants `Metre`, `Second`, `Kilogram`. -/
inductive BaseUnit where
  | Metre
  | Second
  | Kilogram
deriving DecidableEq, Repr, Fintype

/-- Value: the private tuple struct `struct Value<'a>(f64, &'a BaseUnit)`.
The borrowed reference is identified with the `BaseUnit` it points to. -/
structure Value where
  magnitude : Float
  ref : BaseUnit
deriving Repr

/-- value on a base unit: `impl Val for BaseUnit` returns `Value(1.0, &self)`,
i.e. magnitude `1.0` and the reference `self` itself. -/
def BaseUnit.value (b : BaseUnit) : Value :=
  ⟨1.0, b⟩

/-- Unit: the struct `pub struct Unit<'a>` with public fields `symbol`,
`name` and `def` (the latter a borrowed `&'a BaseUnit`, identified with the
`BaseUnit` it points to; `def` is a Lean keyword, hence the name `def_`). -/
structure Unit where
  symbol : String
  name : String
  def_ : BaseUnit
deriving DecidableEq, Repr

/-- value on a derived unit: `impl Val for Unit` returns
`Value(1.0, self.def)`. -/
def Unit.value (u : Unit) : Value :=
  ⟨1.0, u.def_⟩

/-- State-passing rendering of the call `b.value()`: `value` takes `&self`
only, so over any ambient state type `σ` the call returns its pure result and
leaves the state untouched. -/
def BaseUnit.valueCall {σ : Type} (b : BaseUnit) (s : σ) : Value × σ :=
  (b.value, s)

/-- State-passing rendering of the call `u.value()` for a derived `Unit`. -/
def Unit.valueCall {σ : Type} (u : Unit) (s : σ) : Value × σ :=
  (u.value, s)

/-- Frame rendering of `u.value()`: the call borrows `self` immutably, so it
returns its result together with the receiver, which it cannot modify. -/
def Unit.valueFrame (u : Unit) : Value × Unit :=
  (u.value, u)

/-- Construction of a `Unit` from its three fields, as written at a struct
literal `Unit { symbol, name, def }`; the catalog of previously constructed
units is threaded through and the fresh unit is added to it. -/
def Unit.construct (sy nm : String) (b : BaseUnit) (catalog : List Unit) :
    Unit × List Unit :=
  (⟨sy, nm, b⟩, ⟨sy, nm, b⟩ :: catalog)

/-- Enumeration of the `BaseUnit` variants, in source order. -/
def allBaseUnits : List BaseUnit :=
  [.Metre, .Second, .Kilogram]

/-- Discriminant tag of a `BaseUnit` variant, in source order. -/
def BaseUnit.tag : BaseUnit → Nat
  | .Metre => 0
  | .Second => 1
  | .Kilogram => 2

/-- Item: the declarations of `unit.rs` whose visibility the module fixes,
including the three fields of `Unit`. -/
inductive Item where
  | valueStruct
  | valTrait
  | baseUnitEnum
  | unitStruct
  | unitSymbolField
  | unitNameField
  | unitDefField
deriving DecidableEq, Repr, Fintype

/-- Visibility of each item of `unit.rs`: `true` exactly when the item is
declared with the `pub` qualifier in the source. -/
def Item.isPub : Item → Bool
  | .valueStruct => false
  | .valTrait => false
  | .baseUnitEnum => true
  | .unitStruct => true
  | .unitSymbolField => true
  | .unitNameField => true
  | .unitDefField => true

/-- Whether `value()` can be invoked from outside the defining module: in
Rust a trait method is callable there only if the trait itself is visible
there, and `value` is the sole method of the trait `Val`. -/
def valueCallableOutsideModule : Bool :=
  Item.isPub .valTrait

/-- C1: for every `BaseUnit` variant `b`, `b.value()` returns a `Value`
whose magnitude is exactly `1.0` and whose base-unit reference is `b`
itself. -/
theorem baseUnit_value_eq (b : BaseUnit) :
    b.value = ⟨1.0, b⟩ := by
  rfl

/-- C2: for every derived `Unit` built from any symbol, any name and a
base-unit reference `b`, `value()` returns magnitude exactly `1.0` and the
reference `b`, independently of the `symbol` and `name` fields. -/
theorem unit_value_eq (sy nm sy' nm' : String) (b : BaseUnit) :
    (Unit.mk sy nm b).value = ⟨1.0, b⟩ ∧
      (Unit.mk sy nm b).value = (Unit.mk sy' nm' b).value := by
  exact ⟨rfl, rfl⟩

/-- C3: `value()` is total and never fails: on every `BaseUnit` and on every
constructed `Unit` the call returns a `Value`; no failure branch exists. -/
theorem value_total :
    (∀ b : BaseUnit, ∃ v : Value, b.value = v) ∧
      (∀ u : Unit, ∃ v : Value, u.value = v) :=
  ⟨fun b => ⟨b.value, rfl⟩, fun u => ⟨u.value, rfl⟩⟩

/-- C4: `BaseUnit` is a closed enumeration of exactly three variants,
`Metre`, `Second` and `Kilogram`: the enumeration has length 3 with no
duplicates, every value of the type occurs in it, and enumerating twice
yields the same list. -/
theorem baseUnit_closed_three :
    allBaseUnits.length = 3 ∧ allBaseUnits.Nodup ∧
      (∀ b : BaseUnit, b ∈ allBaseUnits) ∧ allBaseUnits = allBaseUnits := by
  refine ⟨rfl, by decide, ?_, rfl⟩
  intro b
  cases b <;> simp [allBaseUnits]

/-- C5: equality on `BaseUnit` is identity: two `BaseUnit` values are equal
exactly when they are the same variant (same discriminant tag), and the
comparison is decidable (every pair is settled, equal or unequal). -/
theorem baseUnit_eq_iff_tag :
    (∀ a b : BaseUnit, a = b ↔ a.tag = b.tag) ∧
      (∀ a b : BaseUnit, a = b ∨ a ≠ b) :=
  ⟨by decide, fun a b => Decidable.em (a = b)⟩

/-- C6: `value()` is pure and deterministic: over any ambient state, a call
returns the same result regardless of the state, leaves the state unchanged,
and repeated calls (here: a second call run on the state left by the first)
return identical results. -/
theorem value_pure (b : BaseUnit) (u : Unit) (σ : Type) (s s' : σ) :
    (b.valueCall s).1 = (b.valueCall s').1 ∧ (b.valueCall s).2 = s ∧
      (u.valueCall s).1 = (u.valueCall s').1 ∧ (u.valueCall s).2 = s ∧
      (b.valueCall (b.valueCall s).2).1 = (b.valueCall s).1 ∧
      (u.valueCall (u.valueCall s).2).1 = (u.valueCall s).1 :=
  ⟨rfl, rfl, rfl, rfl, rfl, rfl⟩

/-- C7: the three fields of a `Unit` are immutable across `value()`: the call
returns the receiver unchanged, field by field. -/
theorem unit_fields_frame (u : Unit) :
    (u.valueFrame).2 = u ∧
      (u.valueFrame).2.symbol = u.symbol ∧
      (u.valueFrame).2.name = u.name ∧
      (u.valueFrame).2.def_ = u.def_ :=
  ⟨rfl, rfl, rfl, rfl⟩

/-- C8: constructing two distinct `Unit`s over the same base-unit reference
yields two descriptors whose `value()` results both reference that same
`BaseUnit`, and the `value()` result of the first is unchanged by the later
construction of the second: after both constructions the first unit is still
in the catalog and still values to `(1.0, b)`. -/
theorem shared_base_ref (sy₁ nm₁ sy₂ nm₂ : String) (b : BaseUnit) :
    ((Unit.construct sy₁ nm₁ b []).1).value = ⟨1.0, b⟩ ∧
      ((Unit.construct sy₂ nm₂ b
          (Unit.construct sy₁ nm₁ b []).2).1).value = ⟨1.0, b⟩ ∧
      ((Unit.construct sy₁ nm₁ b []).1).value.ref =
        ((Unit.construct sy₂ nm₂ b []).1).value.ref ∧
      (Unit.construct sy₁ nm₁ b []).1 ∈
        (Unit.construct sy₂ nm₂ b (Unit.construct sy₁ nm₁ b []).2).2 := by
  refine ⟨rfl, rfl, rfl, ?_⟩
  simp [Unit.construct]

/-- C9: `Unit` construction performs no validation and never fails: every
pair of strings (the empty string included) and every base-unit reference
yield a `Unit`, whose `value()` still returns magnitude `1.0` and the given
reference. -/
theorem construct_total :
    (∀ (sy nm : String) (b : BaseUnit) (c : List Unit),
        ∃ u : Unit, (Unit.construct sy nm b c).1 = u ∧ u.value = ⟨1.0, b⟩) ∧
      (Unit.mk "" "" .Metre).value = ⟨1.0, .Metre⟩ :=
  ⟨fun sy nm b c => ⟨⟨sy, nm, b⟩, rfl, rfl⟩, rfl⟩

/-- C10: `BaseUnit`, `Unit` and all of `Unit`'s fields are `pub`, while the
trait `Val` and the struct `Value` are private to the module, so `value()`
cannot be invoked from outside the defining module. -/
theorem value_capability_private :
    Item.isPub .baseUnitEnum = true ∧ Item.isPub .unitStruct = true ∧
      Item.isPub .unitSymbolField = true ∧ Item.isPub .unitNameField = true ∧
      Item.isPub .unitDefField = true ∧
      Item.isPub .valTrait = false ∧ Item.isPub .valueStruct = false ∧
      valueCallableOutsideModule = false := by
  decide

end Quanstants
